import Mathlib

/-
Shallow embedding of the attribution-simulator core (src/src/pages/Index.tsx).
All JavaScript numbers are modelled as exact rationals; `x || 1` guards are
modelled as `if x = 0 then 1 else x`, `Math.max`/`Math.min` as `max`/`min`,
`Math.floor` as `Int.floor`, and `Number(v.toFixed(k))` as decimal rounding
half away from zero (round half up for the nonnegative values that occur here).
-/

namespace AttribSim

/-- The fixed channel enumeration (`CHANNELS` in the source, order significant). -/
inductive Channel
  | Meta
  | GoogleSearch
  | LinkedIn
deriving DecidableEq, Repr

/-- The fixed, ordered channel list, mirroring `const CHANNELS = [...]`. -/
def CHANNELS : List Channel := [Channel.Meta, Channel.GoogleSearch, Channel.LinkedIn]

/-- Attribution model choices. -/
inductive AttributionModel
  | last_click
  | position_based
  | time_decay
  | bayesian_mmm
deriving DecidableEq, Repr

/-- Saturation level choices. -/
inductive SaturationLevel
  | low
  | medium
  | high
deriving DecidableEq, Repr

/-- Noise level choices. -/
inductive NoiseLevel
  | low
  | medium
  | high
deriving DecidableEq, Repr

/-- Conversion window: 7, 14 or 30 days. -/
inductive ConversionWindow
  | w7
  | w14
  | w30
deriving DecidableEq, Repr

/-- Number of days of a conversion window (the numeric value used in the source). -/
def windowDays : ConversionWindow → ℕ
  | ConversionWindow.w7 => 7
  | ConversionWindow.w14 => 14
  | ConversionWindow.w30 => 30

/-- Certainty grade of a channel output. -/
inductive Certainty
  | Low
  | Medium
  | High
deriving DecidableEq, Repr

/-- `SimulationInput` of the source. -/
structure SimulationInput where
  spend : Channel → ℚ
  model : AttributionModel
  window : ConversionWindow
  saturation : SaturationLevel
  noise : NoiseLevel

/-- `ChannelOutput` of the source. -/
structure ChannelOutput where
  channel : Channel
  roas : ℚ
  cac : ℚ
  attributedConversions : ℚ
  incrementalConversions : ℚ
  certainty : Certainty
deriving DecidableEq, Repr

/-- `BudgetPlanRow` of the source. -/
structure BudgetPlanRow where
  channel : Channel
  before : ℚ
  after : ℚ
deriving DecidableEq, Repr

/-- `baseEfficiency` table of `simulateAttribution`. -/
def baseEfficiency : Channel → ℚ
  | Channel.Meta => 3.2
  | Channel.GoogleSearch => 4.0
  | Channel.LinkedIn => 2.4

/-- `prospectingWeight` table of `simulateAttribution`. -/
def prospectingWeight : Channel → ℚ
  | Channel.Meta => 0.45
  | Channel.GoogleSearch => 0.2
  | Channel.LinkedIn => 0.7

/-- `retargetingBias` table of `simulateAttribution`. -/
def retargetingBias : Channel → ℚ
  | Channel.Meta => 0.2
  | Channel.GoogleSearch => 0.35
  | Channel.LinkedIn => 0.1

/-- `windowMultiplier` table of `simulateAttribution`. -/
def windowMultiplier : ConversionWindow → ℚ
  | ConversionWindow.w7 => 0.8
  | ConversionWindow.w14 => 0.95
  | ConversionWindow.w30 => 1.1

/-- The level-dependent base factor inside `saturationPenalty`. -/
def satBase : SaturationLevel → ℚ
  | SaturationLevel.low => 0.1
  | SaturationLevel.medium => 0.25
  | SaturationLevel.high => 0.45

/-- `saturationPenalty` of `simulateAttribution`. -/
def saturationPenalty (level : SaturationLevel) (spend : ℚ) : ℚ :=
  1 - min (satBase level * (spend / 100000)) (satBase level + 0.15)

/-- `noiseFactor` of `simulateAttribution`. -/
def noiseFactor : NoiseLevel → ℚ
  | NoiseLevel.low => 0.05
  | NoiseLevel.medium => 0.12
  | NoiseLevel.high => 0.22

/-- `modelWeights` table of `simulateAttribution`. -/
def modelWeights : AttributionModel → Channel → ℚ
  | AttributionModel.last_click, Channel.Meta => 0.3
  | AttributionModel.last_click, Channel.GoogleSearch => 0.55
  | AttributionModel.last_click, Channel.LinkedIn => 0.15
  | AttributionModel.position_based, Channel.Meta => 0.4
  | AttributionModel.position_based, Channel.GoogleSearch => 0.4
  | AttributionModel.position_based, Channel.LinkedIn => 0.2
  | AttributionModel.time_decay, Channel.Meta => 0.35
  | AttributionModel.time_decay, Channel.GoogleSearch => 0.45
  | AttributionModel.time_decay, Channel.LinkedIn => 0.2
  | AttributionModel.bayesian_mmm, Channel.Meta => 0.38
  | AttributionModel.bayesian_mmm, Channel.GoogleSearch => 0.32
  | AttributionModel.bayesian_mmm, Channel.LinkedIn => 0.3

/-- The certainty branch of `simulateAttribution` (default Medium, then the
High test, then the Low test), depending only on model, window and noise. -/
def certaintyOf (model : AttributionModel) (window : ConversionWindow)
    (noise : NoiseLevel) : Certainty :=
  if model = AttributionModel.bayesian_mmm ∧ window = ConversionWindow.w30 ∧
      noise = NoiseLevel.low then
    Certainty.High
  else if noise = NoiseLevel.high ∨ window = ConversionWindow.w7 then
    Certainty.Low
  else
    Certainty.Medium

/-- `effectiveROAS` of the per-channel body of `simulateAttribution`. -/
def effectiveROAS (input : SimulationInput) (channel : Channel) : ℚ :=
  baseEfficiency channel * windowMultiplier input.window *
    saturationPenalty input.saturation (input.spend channel) *
    (1 + (prospectingWeight channel - retargetingBias channel) * 0.2)

/-- `noisyShare` of the per-channel body of `simulateAttribution`. -/
def noisyShare (input : SimulationInput) (channel : Channel) : ℚ :=
  modelWeights input.model channel +
    (retargetingBias channel - prospectingWeight channel) * noiseFactor input.noise *
      (if input.model = AttributionModel.last_click then 1.2 else 0.8)

/-- `boundedShare` of the per-channel body of `simulateAttribution`. -/
def boundedShare (input : SimulationInput) (channel : Channel) : ℚ :=
  max 0.05 (min 0.7 (noisyShare input channel))

/-- `modeledRevenue` of the per-channel body of `simulateAttribution`. -/
def modeledRevenue (input : SimulationInput) (channel : Channel) : ℚ :=
  input.spend channel * effectiveROAS input channel

/-- `blendedROAS` of the per-channel body of `simulateAttribution`. -/
def blendedROAS (input : SimulationInput) (channel : Channel) : ℚ :=
  modeledRevenue input channel / max (input.spend channel) 1

/-- `conversions` of the per-channel body of `simulateAttribution`. -/
def conversionsOf (input : SimulationInput) (channel : Channel) : ℚ :=
  modeledRevenue input channel / 500

/-- `incrementalShare` of the per-channel body of `simulateAttribution`. -/
def incrementalShare (input : SimulationInput) (channel : Channel) : ℚ :=
  prospectingWeight channel * 0.6 + (1 - retargetingBias channel) * 0.2 +
    (if input.model = AttributionModel.bayesian_mmm then 0.2 else 0.1)

/-- `incrementalConversions` of the per-channel body of `simulateAttribution`
(`incrementalRevenue / 500`). -/
def incrementalConversionsOf (input : SimulationInput) (channel : Channel) : ℚ :=
  modeledRevenue input channel * incrementalShare input channel *
    (1 - noiseFactor input.noise * 0.4) / 500

/-- `cac` of the per-channel body of `simulateAttribution`. -/
def cacOf (input : SimulationInput) (channel : Channel) : ℚ :=
  input.spend channel / max (conversionsOf input channel) 1

/-- The record returned for one channel by `simulateAttribution`. -/
def simChannel (input : SimulationInput) (channel : Channel) : ChannelOutput :=
  { channel := channel
    roas := blendedROAS input channel * boundedShare input channel
    cac := cacOf input channel
    attributedConversions := conversionsOf input channel * boundedShare input channel
    incrementalConversions := incrementalConversionsOf input channel
    certainty := certaintyOf input.model input.window input.noise }

/-- `simulateAttribution`: one output per channel, in the fixed channel order. -/
def simulateAttribution (input : SimulationInput) : List ChannelOutput :=
  CHANNELS.map (simChannel input)

/-- `total` of `deriveBudgetPlan`: the spend sum, with the `|| 1` fallback. -/
def planTotal (spend : Channel → ℚ) : ℚ :=
  if (CHANNELS.map spend).sum = 0 then 1 else (CHANNELS.map spend).sum

/-- `overCreditedBase` table of `deriveBudgetPlan`. -/
def overCreditedBase (model : AttributionModel) : Channel → ℚ
  | Channel.Meta => if model = AttributionModel.last_click then 0.4 else 0.3
  | Channel.GoogleSearch => if model = AttributionModel.last_click then 0.55 else 0.45
  | Channel.LinkedIn => 0.15

/-- `underCreditedBase` table of `deriveBudgetPlan`. -/
def underCreditedBase : Channel → ℚ
  | Channel.Meta => 0.35
  | Channel.GoogleSearch => 0.2
  | Channel.LinkedIn => 0.45

/-- `reallocationIntensity` of `deriveBudgetPlan`. -/
def reallocationIntensity (model : AttributionModel) : ℚ :=
  if model = AttributionModel.bayesian_mmm then 0.35 else 0.28

/-- `beforeShares[ch]` of `deriveBudgetPlan`. -/
def beforeShare (spend : Channel → ℚ) (ch : Channel) : ℚ :=
  spend ch / planTotal spend

/-- `giveBack` computed for a channel in the first loop of `deriveBudgetPlan`. -/
def giveBack (spend : Channel → ℚ) (model : AttributionModel) (ch : Channel) : ℚ :=
  max 0 (beforeShare spend ch - overCreditedBase model ch) * reallocationIntensity model

/-- `pool`: the accumulated give-backs over all channels in `deriveBudgetPlan`. -/
def reallocationPool (spend : Channel → ℚ) (model : AttributionModel) : ℚ :=
  (CHANNELS.map (giveBack spend model)).sum

/-- `totalUnderWeight` of `deriveBudgetPlan`. -/
def totalUnderWeight : ℚ :=
  (CHANNELS.map underCreditedBase).sum

/-- `afterShares[ch]` of `deriveBudgetPlan` after both loops: the floored share
plus the proportional allocation from the pool. -/
def afterShareRaw (spend : Channel → ℚ) (model : AttributionModel) (ch : Channel) : ℚ :=
  max 0.08 (beforeShare spend ch - giveBack spend model ch) +
    underCreditedBase ch / totalUnderWeight * reallocationPool spend model

/-- `normalize` of `deriveBudgetPlan`: sum of after-shares, with `|| 1` fallback. -/
def planNormalize (spend : Channel → ℚ) (model : AttributionModel) : ℚ :=
  if (CHANNELS.map (afterShareRaw spend model)).sum = 0 then 1
  else (CHANNELS.map (afterShareRaw spend model)).sum

/-- `deriveBudgetPlan` of the source. -/
def deriveBudgetPlan (spend : Channel → ℚ) (model : AttributionModel) : List BudgetPlanRow :=
  CHANNELS.map fun channel =>
    { channel := channel
      before := beforeShare spend channel / planNormalize spend model * planTotal spend
      after := afterShareRaw spend model channel / planNormalize spend model * planTotal spend }

/-- `Number(q.toFixed(2))` for the nonnegative values of this program:
rounding half away from zero to two decimal places. -/
def round2 (q : ℚ) : ℚ :=
  (⌊q * 100 + 1 / 2⌋ : ℚ) / 100

/-- `Number(q.toFixed(0))` for the nonnegative values of this program:
rounding half away from zero to an integer. -/
def round0 (q : ℚ) : ℚ :=
  (⌊q + 1 / 2⌋ : ℚ)

/-- `WeeklyPoint` of the source (`{week, ROAS, CAC}`). -/
structure WeeklyPoint where
  week : String
  ROAS : ℚ
  CAC : ℚ
deriving DecidableEq, Repr

/-- The model constant of the weekly-series seed
(`model === "bayesian_mmm" ? 17 : model === "time_decay" ? 11 : 5`). -/
def modelSeedConstant (model : AttributionModel) : ℚ :=
  if model = AttributionModel.bayesian_mmm then 17
  else if model = AttributionModel.time_decay then 11
  else 5

/-- The initial LCG seed of `weeklySeries`:
`Math.floor(totalSpend / 1000 + modelConstant + window)`. -/
def weeklySeed0 (totalSpend : ℚ) (model : AttributionModel) (window : ConversionWindow) : ℤ :=
  ⌊totalSpend / 1000 + modelSeedConstant model + (windowDays window : ℚ)⌋

/-- The LCG state update of `rand` in `weeklySeries`:
`seed = (seed * 9301 + 49297) % 233280`. -/
def lcgStep (seed : ℤ) : ℤ :=
  (seed * 9301 + 49297) % 233280

/-- The value returned by `rand()` when called at state `seed`: the updated
seed divided by 233280. -/
def lcgRandValue (seed : ℤ) : ℚ :=
  ((lcgStep seed : ℤ) : ℚ) / 233280

/-- `lagFactor` of `weeklySeries`. -/
def lagFactor : ConversionWindow → ℚ
  | ConversionWindow.w7 => 0.6
  | ConversionWindow.w14 => 0.8
  | ConversionWindow.w30 => 1

/-- `saturationFactor` of `weeklySeries`. -/
def saturationFactor : SaturationLevel → ℚ
  | SaturationLevel.low => 1.05
  | SaturationLevel.medium => 1
  | SaturationLevel.high => 0.9

/-- `noiseAmplitude` of `weeklySeries`. -/
def noiseAmplitude : NoiseLevel → ℚ
  | NoiseLevel.low => 0.04
  | NoiseLevel.medium => 0.08
  | NoiseLevel.high => 0.14

/-- `trendDrift` of `weeklySeries`. -/
def trendDrift (model : AttributionModel) : ℚ :=
  if model = AttributionModel.bayesian_mmm then 0.015
  else if model = AttributionModel.time_decay then 0.01
  else 0.005

/-- The `Array.from` body of `weeklySeries`, with the mutable seed made an
explicit argument: builds `remaining` points starting at 0-based index `idx`.
Each week draws three `rand()` values in order (shock, mmmNoise, cac). -/
def weeklyBuild (sR sC tD nA wks : ℚ) : ℕ → ℤ → ℕ → List WeeklyPoint
  | _, _, 0 => []
  | idx, seed, Nat.succ remaining =>
    let weekIndex := idx + 1
    let s1 := lcgStep seed
    let s2 := lcgStep s1
    let s3 := lcgStep s2
    let centeredIndex : ℚ := (weekIndex : ℚ) - (wks / 2 + 0.5)
    let structuralTrend := 1 + tD * centeredIndex
    let shock := 1 + (lcgRandValue seed - 0.5) * 2 * nA
    let mmmNoise := 1 + (lcgRandValue s1 - 0.5) * nA * 1.5
    let roas := sR * structuralTrend * shock * mmmNoise
    let cac := sC * (2 - structuralTrend) * (1 + (lcgRandValue s2 - 0.5) * nA)
    { week := "W" ++ toString weekIndex
      ROAS := round2 roas
      CAC := round0 (max cac 1) } ::
      weeklyBuild sR sC tD nA wks (idx + 1) s3 remaining

/-- `weeklySeries` of the source: the 12-point synthetic series, as a pure
function of the values the `useMemo` closure reads. -/
def weeklySeries (blendedRoas blendedCac : ℚ) (window : ConversionWindow)
    (saturation : SaturationLevel) (noise : NoiseLevel) (model : AttributionModel)
    (totalSpend : ℚ) : List WeeklyPoint :=
  let weeks : ℚ := 12
  let baseRoas := if blendedRoas = 0 then 1 else blendedRoas
  let baseCac := if blendedCac = 0 then 1 else blendedCac
  let lf := lagFactor window
  let sf := saturationFactor saturation
  let startingRoas := baseRoas * lf * sf
  let startingCac := baseCac / (if lf * sf = 0 then 1 else lf * sf)
  weeklyBuild startingRoas startingCac (trendDrift model) (noiseAmplitude noise)
    weeks 0 (weeklySeed0 totalSpend model window) 12

/-- A row of `perChannelWeeklySeries`: the week label index and the per-channel
ROAS values (the source stores them as three record fields keyed by channel). -/
structure PerChannelRow where
  week : ℕ
  value : Channel → ℚ

/-- `baseRoasByChannel` of `perChannelWeeklySeries`: the channel's simulated
ROAS with the `|| 1` fallback (missing or zero becomes 1). -/
def baseRoasByChannel (outputs : List ChannelOutput) (ch : Channel) : ℚ :=
  match outputs.find? (fun o => decide (o.channel = ch)) with
  | some o => if o.roas = 0 then 1 else o.roas
  | none => 1

/-- 0-based index of a channel in `CHANNELS` (the `channelIdx` of the
source's `CHANNELS.forEach`). -/
def channelIndex : Channel → ℕ
  | Channel.Meta => 0
  | Channel.GoogleSearch => 1
  | Channel.LinkedIn => 2

/-- `perChannelWeeklySeries` of the source, as a function of the simulated
outputs and the week count (12 in the page; empty when the count is 0). -/
def perChannelWeeklySeries (outputs : List ChannelOutput) (weeks : ℕ) : List PerChannelRow :=
  if weeks = 0 then []
  else
    (List.range weeks).map fun idx =>
      { week := idx + 1
        value := fun ch =>
          round2 (baseRoasByChannel outputs ch *
            (1 + ((idx : ℚ) - (weeks : ℚ) / 2) * 0.01) *
            (1 + ((channelIndex ch : ℚ) - 1) * 0.03)) }

/-- `CohortRow` of the source. -/
structure CohortRow where
  bucket : String
  cumulative : ℚ
  incremental : ℚ
  note : String

/-- `baseCurve` of `cohortTable`, keyed by the conversion window. -/
def cohortBaseCurve : ConversionWindow → List ℚ
  | ConversionWindow.w7 => [0.55, 0.8, 0.95, 1]
  | ConversionWindow.w14 => [0.35, 0.6, 0.8, 0.92, 0.98, 1]
  | ConversionWindow.w30 => [0.18, 0.35, 0.55, 0.72, 0.85, 0.93, 0.97, 1]

/-- `noiseAdjust` of `cohortTable`. -/
def noiseAdjust : NoiseLevel → ℚ
  | NoiseLevel.low => 0.01
  | NoiseLevel.medium => 0.03
  | NoiseLevel.high => 0.06

/-- The `forEach` body of `cohortTable` with the `prev` accumulator explicit:
`len` is the full base-curve length, `idx` the current index. -/
def cohortRowsAux (na len : ℚ) : List ℚ → ℕ → ℚ → List CohortRow
  | [], _, _ => []
  | cum :: rest, idx, prev =>
    let adjustedCum := max 0 (min 1 (cum + ((idx : ℚ) - len / 2) * na * 0.1))
    let incremental := max 0 (adjustedCum - prev)
    { bucket :=
        if idx = 0 then "Week 0–1"
        else "Week " ++ toString idx ++ "–" ++ toString (idx + 1)
      cumulative := adjustedCum
      incremental := incremental
      note :=
        if idx = 0 then "Short-lag, lower-funnel dominated conversions."
        else if idx < 3 then "Mix of retargeting and some prospecting-driven conversions."
        else "Longer-lag, prospecting-heavy cohorts with higher modeled incremental lift." } ::
      cohortRowsAux na len rest (idx + 1) adjustedCum

/-- `cohortTable` of the source, keyed by conversion window and noise level. -/
def cohortTable (window : ConversionWindow) (noise : NoiseLevel) : List CohortRow :=
  cohortRowsAux (noiseAdjust noise) ((cohortBaseCurve window).length : ℚ)
    (cohortBaseCurve window) 0 0

/-- The page's default spend mapping (120000 / 90000 / 60000). -/
def dSpend : Channel → ℚ
  | Channel.Meta => 120000
  | Channel.GoogleSearch => 90000
  | Channel.LinkedIn => 60000

/-- The page's default simulation input. -/
def dInput : SimulationInput :=
  { spend := dSpend
    model := AttributionModel.bayesian_mmm
    window := ConversionWindow.w30
    saturation := SaturationLevel.medium
    noise := NoiseLevel.medium }

/-- The all-zero spend mapping. -/
def zeroSpend : Channel → ℚ := fun _ => 0

/-- A concentrated spend mapping (40 / 55 / 5) that pins Meta and Google
Search exactly at their last-click over-credit ceilings. -/
def ceSpend : Channel → ℚ
  | Channel.Meta => 40
  | Channel.GoogleSearch => 55
  | Channel.LinkedIn => 5

/-- Follows the spec's words (§4.3): modelConstant is
{bayesian_mmm: 17, time_decay: 11, else: 5}. -/
def specModelConstant : AttributionModel → ℚ
  | AttributionModel.bayesian_mmm => 17
  | AttributionModel.time_decay => 11
  | _ => 5

/-- Follows the spec's words (§4.3):
`seed0 = floor(totalSpend/1000 + modelConstant + window)`. -/
def specSeedInit (totalSpend : ℚ) (model : AttributionModel)
    (window : ConversionWindow) : ℤ :=
  ⌊totalSpend / 1000 + specModelConstant model + (windowDays window : ℚ)⌋

/-- Follows the spec's words (§4.3): `seed = (seed*9301 + 49297) mod 233280`. -/
def specLcgUpdate (seed : ℤ) : ℤ :=
  (seed * 9301 + 49297) % 233280

/-- Follows the spec's words (§4.3): `rand() = seed/233280`, the seed having
just been updated. -/
def specRandValue (seed : ℤ) : ℚ :=
  ((specLcgUpdate seed : ℤ) : ℚ) / 233280

/-! ## Helper lemmas -/

theorem weeklyBuild_length (sR sC tD nA wks : ℚ) :
    ∀ (n idx : ℕ) (seed : ℤ), (weeklyBuild sR sC tD nA wks idx seed n).length = n := by
  intro n
  induction n with
  | zero => intro idx seed; rfl
  | succ k ih => intro idx seed; simp [weeklyBuild, ih]

theorem satPenalty_nonneg (level : SaturationLevel) (s : ℚ) :
    0 ≤ saturationPenalty level s := by
  have h := min_le_right (satBase level * (s / 100000)) (satBase level + 0.15)
  have hb : satBase level ≤ 0.45 := by cases level <;> norm_num [satBase]
  unfold saturationPenalty
  linarith

theorem effectiveROAS_nonneg (input : SimulationInput) (ch : Channel) :
    0 ≤ effectiveROAS input ch := by
  have h1 : 0 ≤ baseEfficiency ch := by cases ch <;> norm_num [baseEfficiency]
  have h2 : 0 ≤ windowMultiplier input.window := by
    cases hw : input.window <;> norm_num [windowMultiplier]
  have h3 := satPenalty_nonneg input.saturation (input.spend ch)
  have h4 : 0 ≤ 1 + (prospectingWeight ch - retargetingBias ch) * 0.2 := by
    cases ch <;> norm_num [prospectingWeight, retargetingBias]
  unfold effectiveROAS
  exact mul_nonneg (mul_nonneg (mul_nonneg h1 h2) h3) h4

theorem simChannel_nonneg (input : SimulationInput) (ch : Channel)
    (h : 0 ≤ input.spend ch) :
    0 ≤ (simChannel input ch).roas ∧ 0 ≤ (simChannel input ch).cac ∧
    0 ≤ (simChannel input ch).attributedConversions ∧
    0 ≤ (simChannel input ch).incrementalConversions := by
  have hmr : 0 ≤ modeledRevenue input ch :=
    mul_nonneg h (effectiveROAS_nonneg input ch)
  have hbs : 0 ≤ boundedShare input ch := by
    unfold boundedShare
    exact le_trans (by norm_num) (le_max_left _ _)
  have hconv : 0 ≤ conversionsOf input ch := by
    unfold conversionsOf
    exact div_nonneg hmr (by norm_num)
  have hmax1 : (0 : ℚ) ≤ max (input.spend ch) 1 :=
    le_trans zero_le_one (le_max_right _ _)
  have hmaxc : (0 : ℚ) ≤ max (conversionsOf input ch) 1 :=
    le_trans zero_le_one (le_max_right _ _)
  have hish : 0 ≤ incrementalShare input ch := by
    unfold incrementalShare
    split <;> cases ch <;> norm_num [prospectingWeight, retargetingBias]
  have hng : 0 ≤ 1 - noiseFactor input.noise * 0.4 := by
    cases hn : input.noise <;> norm_num [noiseFactor]
  refine ⟨?_, ?_, ?_, ?_⟩
  · exact mul_nonneg (div_nonneg hmr hmax1) hbs
  · exact div_nonneg h hmaxc
  · exact mul_nonneg hconv hbs
  · exact div_nonneg (mul_nonneg (mul_nonneg hmr hish) hng) (by norm_num)

theorem underCreditedBase_nonneg (ch : Channel) : 0 ≤ underCreditedBase ch := by
  cases ch <;> norm_num [underCreditedBase]

theorem totalUnderWeight_eq : totalUnderWeight = 1 := by
  norm_num [totalUnderWeight, CHANNELS, underCreditedBase]

theorem reallocationIntensity_nonneg (model : AttributionModel) :
    0 ≤ reallocationIntensity model := by
  unfold reallocationIntensity
  split <;> norm_num

theorem giveBack_nonneg (spend : Channel → ℚ) (model : AttributionModel) (ch : Channel) :
    0 ≤ giveBack spend model ch := by
  unfold giveBack
  exact mul_nonneg (le_max_left 0 _) (reallocationIntensity_nonneg model)

theorem pool_nonneg (spend : Channel → ℚ) (model : AttributionModel) :
    0 ≤ reallocationPool spend model := by
  have h1 := giveBack_nonneg spend model Channel.Meta
  have h2 := giveBack_nonneg spend model Channel.GoogleSearch
  have h3 := giveBack_nonneg spend model Channel.LinkedIn
  unfold reallocationPool
  simp only [CHANNELS, List.map_cons, List.map_nil, List.sum_cons, List.sum_nil]
  linarith

theorem afterShareRaw_floor (spend : Channel → ℚ) (model : AttributionModel) (ch : Channel) :
    (0.08 : ℚ) ≤ afterShareRaw spend model ch := by
  have h1 : (0.08 : ℚ) ≤ max 0.08 (beforeShare spend ch - giveBack spend model ch) :=
    le_max_left _ _
  have h2 : 0 ≤ underCreditedBase ch / totalUnderWeight * reallocationPool spend model := by
    refine mul_nonneg (div_nonneg (underCreditedBase_nonneg ch) ?_) (pool_nonneg spend model)
    rw [totalUnderWeight_eq]
    norm_num
  unfold afterShareRaw
  linarith

theorem planNormalize_eq (spend : Channel → ℚ) (model : AttributionModel) :
    planNormalize spend model = (CHANNELS.map (afterShareRaw spend model)).sum ∧
    0 < (CHANNELS.map (afterShareRaw spend model)).sum := by
  have h1 := afterShareRaw_floor spend model Channel.Meta
  have h2 := afterShareRaw_floor spend model Channel.GoogleSearch
  have h3 := afterShareRaw_floor spend model Channel.LinkedIn
  have hpos : 0 < (CHANNELS.map (afterShareRaw spend model)).sum := by
    simp only [CHANNELS, List.map_cons, List.map_nil, List.sum_cons, List.sum_nil]
    linarith
  refine ⟨?_, hpos⟩
  unfold planNormalize
  rw [if_neg (ne_of_gt hpos)]

theorem certaintyOf_cases (m : AttributionModel) (w : ConversionWindow) (n : NoiseLevel) :
    (certaintyOf m w n = Certainty.High ↔
      (m = AttributionModel.bayesian_mmm ∧ w = ConversionWindow.w30 ∧ n = NoiseLevel.low)) ∧
    (certaintyOf m w n = Certainty.Low ↔
      (n = NoiseLevel.high ∨ w = ConversionWindow.w7)) ∧
    (certaintyOf m w n = Certainty.Medium ↔
      (¬(m = AttributionModel.bayesian_mmm ∧ w = ConversionWindow.w30 ∧ n = NoiseLevel.low) ∧
        ¬(n = NoiseLevel.high ∨ w = ConversionWindow.w7))) := by
  cases m <;> cases w <;> cases n <;> decide

/-! ## Claim theorems -/

/-- C3: for every input, every output's certainty equals the shared value
`certaintyOf model window noise`, which is High iff model = bayesian_mmm and
window = 30 and noise = low, Low iff noise = high or window = 7, and Medium in
exactly the remaining combinations. -/
theorem certainty_cases (input : SimulationInput) :
    (simulateAttribution input).map ChannelOutput.certainty =
      List.replicate 3 (certaintyOf input.model input.window input.noise) ∧
    (certaintyOf input.model input.window input.noise = Certainty.High ↔
      (input.model = AttributionModel.bayesian_mmm ∧ input.window = ConversionWindow.w30 ∧
        input.noise = NoiseLevel.low)) ∧
    (certaintyOf input.model input.window input.noise = Certainty.Low ↔
      (input.noise = NoiseLevel.high ∨ input.window = ConversionWindow.w7)) ∧
    (certaintyOf input.model input.window input.noise = Certainty.Medium ↔
      (¬(input.model = AttributionModel.bayesian_mmm ∧ input.window = ConversionWindow.w30 ∧
          input.noise = NoiseLevel.low) ∧
        ¬(input.noise = NoiseLevel.high ∨ input.window = ConversionWindow.w7))) :=
  ⟨rfl, certaintyOf_cases input.model input.window input.noise⟩

/-- C3 witness: the High case and a Medium case, concretely. -/
theorem certainty_cases_witness :
    certaintyOf AttributionModel.bayesian_mmm ConversionWindow.w30 NoiseLevel.low =
      Certainty.High ∧
    certaintyOf AttributionModel.last_click ConversionWindow.w14 NoiseLevel.medium =
      Certainty.Medium :=
  ⟨(certainty_cases ⟨zeroSpend, AttributionModel.bayesian_mmm, ConversionWindow.w30,
      SaturationLevel.medium, NoiseLevel.low⟩).2.1.mpr ⟨rfl, rfl, rfl⟩,
   (certainty_cases ⟨zeroSpend, AttributionModel.last_click, ConversionWindow.w14,
      SaturationLevel.medium, NoiseLevel.medium⟩).2.2.2.mpr ⟨by decide, by decide⟩⟩

/-- C10: the three outputs of `simulateAttribution` all carry the same
certainty value `certaintyOf model window noise`, and any two inputs agreeing
on model, window and noise yield identical certainty lists regardless of
spend and saturation. -/
theorem certainty_uniform (input input2 : SimulationInput)
    (hm : input.model = input2.model) (hw : input.window = input2.window)
    (hn : input.noise = input2.noise) :
    (simulateAttribution input).map ChannelOutput.certainty =
      List.replicate 3 (certaintyOf input.model input.window input.noise) ∧
    (simulateAttribution input).map ChannelOutput.certainty =
      (simulateAttribution input2).map ChannelOutput.certainty := by
  refine ⟨rfl, ?_⟩
  show List.replicate 3 (certaintyOf input.model input.window input.noise) =
    List.replicate 3 (certaintyOf input2.model input2.window input2.noise)
  rw [hm, hw, hn]

/-- C10 witness: two inputs differing in spend and saturation but agreeing on
model, window and noise produce the same certainty list. -/
theorem certainty_uniform_witness :
    (simulateAttribution dInput).map ChannelOutput.certainty =
      (simulateAttribution ⟨zeroSpend, AttributionModel.bayesian_mmm, ConversionWindow.w30,
        SaturationLevel.high, NoiseLevel.medium⟩).map ChannelOutput.certainty :=
  (certainty_uniform dInput ⟨zeroSpend, AttributionModel.bayesian_mmm, ConversionWindow.w30,
    SaturationLevel.high, NoiseLevel.medium⟩ rfl rfl rfl).2

/-- C9: with all spends 0, `deriveBudgetPlan` falls back to total = 1, every
`before` is 0, and every divisor in the computation (the normalization sum,
the under-credit weight sum, and the total) is positive, so no division by
zero occurs. -/
theorem zero_spend_budget_plan (model : AttributionModel) :
    planTotal zeroSpend = 1 ∧
    (deriveBudgetPlan zeroSpend model).map BudgetPlanRow.before = [0, 0, 0] ∧
    0 < planNormalize zeroSpend model ∧
    0 < totalUnderWeight ∧
    0 < planTotal zeroSpend := by
  cases model <;>
    norm_num +decide [deriveBudgetPlan, CHANNELS, beforeShare, zeroSpend, planTotal,
      planNormalize, afterShareRaw, giveBack, overCreditedBase, reallocationIntensity,
      reallocationPool, underCreditedBase, totalUnderWeight, max_def, min_def]

/-- C7: for every window and noise level the cohort table's cumulative values
are non-decreasing, lie in [0, 1], and the final cumulative value is within
`noiseAdjust * 0.1` of 1 (in fact it is exactly 1). -/
theorem cohort_monotone_bounded (window : ConversionWindow) (noise : NoiseLevel) :
    0 < (cohortTable window noise).length ∧
    List.Chain' (fun a b => a.cumulative ≤ b.cumulative) (cohortTable window noise) ∧
    (∀ r ∈ cohortTable window noise, 0 ≤ r.cumulative ∧ r.cumulative ≤ 1) ∧
    |((cohortTable window noise).map CohortRow.cumulative).getLastD 0 - 1| ≤
      noiseAdjust noise * 0.1 := by
  cases window <;> cases noise <;>
    norm_num [cohortTable, cohortRowsAux, cohortBaseCurve, noiseAdjust, max_def, min_def,
      List.chain'_cons, abs_le]

/-- C7 witness: the bounds instantiated at window 7, low noise. -/
theorem cohort_monotone_bounded_witness :
    List.Chain' (fun a b => a.cumulative ≤ b.cumulative)
      (cohortTable ConversionWindow.w7 NoiseLevel.low) ∧
    |((cohortTable ConversionWindow.w7 NoiseLevel.low).map CohortRow.cumulative).getLastD 0 -
        1| ≤ noiseAdjust NoiseLevel.low * 0.1 :=
  ⟨(cohort_monotone_bounded ConversionWindow.w7 NoiseLevel.low).2.1,
   (cohort_monotone_bounded ConversionWindow.w7 NoiseLevel.low).2.2.2⟩

/-- C5: the weekly series generator is deterministic: equal arguments produce
the same sequence, and the sequence has exactly 12 points. -/
theorem weekly_series_deterministic (bR bC : ℚ) (w : ConversionWindow)
    (sa : SaturationLevel) (no : NoiseLevel) (mo : AttributionModel) (tS : ℚ)
    (bR2 bC2 : ℚ) (w2 : ConversionWindow) (sa2 : SaturationLevel) (no2 : NoiseLevel)
    (mo2 : AttributionModel) (tS2 : ℚ)
    (h1 : bR = bR2) (h2 : bC = bC2) (h3 : w = w2) (h4 : sa = sa2)
    (h5 : no = no2) (h6 : mo = mo2) (h7 : tS = tS2) :
    weeklySeries bR bC w sa no mo tS = weeklySeries bR2 bC2 w2 sa2 no2 mo2 tS2 ∧
    (weeklySeries bR bC w sa no mo tS).length = 12 := by
  subst h1 h2 h3 h4 h5 h6 h7
  exact ⟨rfl, weeklyBuild_length _ _ _ _ _ 12 0 _⟩

/-- C5 witness: two runs at identical concrete arguments coincide and have 12
points. -/
theorem weekly_series_deterministic_witness :
    weeklySeries 1 1 ConversionWindow.w30 SaturationLevel.medium NoiseLevel.medium
        AttributionModel.bayesian_mmm 270000 =
      weeklySeries 1 1 ConversionWindow.w30 SaturationLevel.medium NoiseLevel.medium
        AttributionModel.bayesian_mmm 270000 ∧
    (weeklySeries 1 1 ConversionWindow.w30 SaturationLevel.medium NoiseLevel.medium
        AttributionModel.bayesian_mmm 270000).length = 12 :=
  weekly_series_deterministic 1 1 ConversionWindow.w30 SaturationLevel.medium
    NoiseLevel.medium AttributionModel.bayesian_mmm 270000 1 1 ConversionWindow.w30
    SaturationLevel.medium NoiseLevel.medium AttributionModel.bayesian_mmm 270000
    rfl rfl rfl rfl rfl rfl rfl

/-- C6: the generator's pseudo-random source is exactly the specified LCG: the
source-embedded seed initialization and update agree with the definitions
written from the spec's words, and `weeklySeries` is the 12-step unfolding of
`weeklyBuild` from `weeklySeed0`. -/
theorem weekly_lcg_spec (tS : ℚ) (mo : AttributionModel) (w : ConversionWindow) (s : ℤ)
    (bR bC : ℚ) (sa : SaturationLevel) (no : NoiseLevel) :
    weeklySeed0 tS mo w = specSeedInit tS mo w ∧
    lcgStep s = specLcgUpdate s ∧
    lcgRandValue s = specRandValue s ∧
    weeklySeries bR bC w sa no mo tS =
      weeklyBuild ((if bR = 0 then 1 else bR) * lagFactor w * saturationFactor sa)
        ((if bC = 0 then 1 else bC) /
          (if lagFactor w * saturationFactor sa = 0 then 1
            else lagFactor w * saturationFactor sa))
        (trendDrift mo) (noiseAmplitude no) 12 0 (weeklySeed0 tS mo w) 12 := by
  refine ⟨?_, rfl, rfl, rfl⟩
  cases mo <;> rfl

/-- C4 counterexample: at the page's default input, week 1 (i = 1), channel
Meta (ordinal position p = 1), the produced ROAS is 0.84 while the claim's
`baseline * variance * (1 + (p-1)*0.03)` is 0.865780608: the code applies
drift `1 + (channelIdx - 1)*0.03` to the 0-based index (factor 0.97 for Meta,
not 1) and rounds the product to two decimals. -/
theorem per_channel_series_ce :
    (((perChannelWeeklySeries (simulateAttribution dInput) 12)[0]?).map
        (fun r => r.value Channel.Meta)).getD 0 <
      baseRoasByChannel (simulateAttribution dInput) Channel.Meta *
        (1 + (((1 : ℚ) - 1) - (12 : ℚ) / 2) * 0.01) * (1 + ((1 : ℚ) - 1) * 0.03) := by
  norm_num +decide [perChannelWeeklySeries, baseRoasByChannel, simulateAttribution, CHANNELS,
    simChannel, blendedROAS, boundedShare, noisyShare, modeledRevenue, effectiveROAS,
    baseEfficiency, windowMultiplier, saturationPenalty, satBase, noiseFactor, modelWeights,
    prospectingWeight, retargetingBias, dInput, dSpend, channelIndex, round2,
    List.getElem?_map, List.getElem?_range, List.find?, max_def, min_def]

/-- C4 (amended): for 0-based week offset idx (the claim's i-1) below the week
count, the row's ROAS for a channel is the two-decimal rounding of
`baseline * (1 + (idx - weeks/2)*0.01) * (1 + (channelIndex - 1)*0.03)`, i.e.
with the drift taken at the 0-based channel index (`1 + (p-2)*0.03` for the
1-based ordinal p). -/
theorem per_channel_series_formula (outputs : List ChannelOutput) (weeks idx : ℕ)
    (ch : Channel) (h : idx < weeks) :
    ((perChannelWeeklySeries outputs weeks)[idx]?).map (fun r => r.value ch) =
      some (round2 (baseRoasByChannel outputs ch *
        (1 + ((idx : ℚ) - (weeks : ℚ) / 2) * 0.01) *
        (1 + ((channelIndex ch : ℚ) - 1) * 0.03))) := by
  have hw : ¬weeks = 0 := by omega
  simp [perChannelWeeklySeries, hw, List.getElem?_map, List.getElem?_range, h]

/-- C4 witness: the amended formula instantiated at an empty output list (so
the baseline falls back to 1), one week, week offset 0, channel Meta. -/
theorem per_channel_series_formula_witness :
    ((perChannelWeeklySeries [] 1)[0]?).map (fun r => r.value Channel.Meta) =
      some (round2 (baseRoasByChannel [] Channel.Meta *
        (1 + (((0 : ℕ) : ℚ) - ((1 : ℕ) : ℚ) / 2) * 0.01) *
        (1 + ((channelIndex Channel.Meta : ℚ) - 1) * 0.03))) :=
  per_channel_series_formula [] 1 0 Channel.Meta (by norm_num)

/-- C8: `simulateAttribution` returns one output per channel in the fixed
channel order, and with nonnegative spends every output's roas, cac,
attributed conversions and incremental conversions are nonnegative. -/
theorem simulate_shape_nonneg (input : SimulationInput)
    (h : ∀ ch ∈ CHANNELS, 0 ≤ input.spend ch) :
    (simulateAttribution input).map ChannelOutput.channel = CHANNELS ∧
    ∀ o ∈ simulateAttribution input,
      0 ≤ o.roas ∧ 0 ≤ o.cac ∧ 0 ≤ o.attributedConversions ∧
        0 ≤ o.incrementalConversions := by
  refine ⟨rfl, ?_⟩
  intro o ho
  have hcase : o = simChannel input Channel.Meta ∨ o = simChannel input Channel.GoogleSearch ∨
      o = simChannel input Channel.LinkedIn := by
    simpa [simulateAttribution, CHANNELS, or_comm, eq_comm] using ho
  rcases hcase with h1 | h1 | h1 <;> subst h1 <;>
    exact simChannel_nonneg input _ (h _ (by decide))

/-- C8 witness: shape and Meta's roas bound at the page's default input. -/
theorem simulate_shape_nonneg_witness :
    (simulateAttribution dInput).map ChannelOutput.channel = CHANNELS ∧
    0 ≤ (simChannel dInput Channel.Meta).roas :=
  ⟨(simulate_shape_nonneg dInput (by norm_num [CHANNELS, dInput, dSpend])).1,
   ((simulate_shape_nonneg dInput (by norm_num [CHANNELS, dInput, dSpend])).2
     (simChannel dInput Channel.Meta)
     (List.mem_map_of_mem (simChannel dInput) (by decide))).1⟩

/-- C2 counterexample: at spend (40, 55, 5) under last_click, LinkedIn's
normalized after-share `after / sum(after)` is 8/103 ≈ 0.0777 < 0.08: its
pre-normalization share is floored to exactly 0.08, but Meta and Google sit
exactly at their over-credit ceilings, leaving the normalization sum at 1.03. -/
theorem budget_floor_ce :
    ((deriveBudgetPlan ceSpend AttributionModel.last_click).map
        (fun r => r.after / ((deriveBudgetPlan ceSpend AttributionModel.last_click).map
          BudgetPlanRow.after).sum))[2]? = some (8 / 103) ∧
    (8 : ℚ) / 103 < 0.08 := by
  norm_num +decide [deriveBudgetPlan, CHANNELS, beforeShare, ceSpend, planTotal,
    afterShareRaw, giveBack, overCreditedBase, reallocationIntensity, reallocationPool,
    underCreditedBase, totalUnderWeight, planNormalize, max_def, min_def]

/-- C2 (amended): the 8% floor applies to the pre-normalization after-shares:
every `afterShareRaw` is at least 0.08, and each returned `after` value is
exactly that share divided by the normalization sum, times the total — so the
post-normalization share `after/sum(after)` equals `afterShareRaw/normalize`
and can fall below 0.08 when the normalization sum exceeds 1. -/
theorem budget_floor_pre_normalization (spend : Channel → ℚ) (model : AttributionModel) :
    (∀ ch ∈ CHANNELS, (0.08 : ℚ) ≤ afterShareRaw spend model ch) ∧
    (deriveBudgetPlan spend model).map BudgetPlanRow.after =
      CHANNELS.map (fun ch =>
        afterShareRaw spend model ch / planNormalize spend model * planTotal spend) :=
  ⟨fun ch _ => afterShareRaw_floor spend model ch, rfl⟩

/-- C2 witness: the pre-normalization floor at the counterexample's input. -/
theorem budget_floor_pre_normalization_witness :
    (0.08 : ℚ) ≤ afterShareRaw ceSpend AttributionModel.last_click Channel.LinkedIn :=
  (budget_floor_pre_normalization ceSpend AttributionModel.last_click).1
    Channel.LinkedIn (by decide)

/-- C1 counterexample: with all spends 0 the fallback makes total = 1 while
every `before` is 0, so `sum(before)` misses `total` by the full total — far
beyond the claimed 1e-6 relative tolerance. -/
theorem budget_plan_totals_ce :
    ((deriveBudgetPlan zeroSpend AttributionModel.position_based).map
        BudgetPlanRow.before).sum + planTotal zeroSpend * (1 / 1000000) <
      planTotal zeroSpend := by
  norm_num +decide [deriveBudgetPlan, CHANNELS, beforeShare, zeroSpend, planTotal,
    planNormalize, afterShareRaw, giveBack, overCreditedBase, reallocationIntensity,
    reallocationPool, underCreditedBase, totalUnderWeight, max_def, min_def]

/-- C1 (amended): `sum(after)` equals the total exactly, for every spend
mapping and model; `sum(before)` additionally equals the total whenever the
spend sum is positive and no channel's floored share binds (each
`beforeShare - giveBack` is at least 0.08, so the normalization sum is 1). -/
theorem budget_plan_totals (spend : Channel → ℚ) (model : AttributionModel) :
    ((deriveBudgetPlan spend model).map BudgetPlanRow.after).sum = planTotal spend ∧
    ((0 < (CHANNELS.map spend).sum ∧
        ∀ ch ∈ CHANNELS, (0.08 : ℚ) ≤ beforeShare spend ch - giveBack spend model ch) →
      ((deriveBudgetPlan spend model).map BudgetPlanRow.before).sum = planTotal spend) := by
  obtain ⟨hN, hpos⟩ := planNormalize_eq spend model
  constructor
  · simp only [deriveBudgetPlan, CHANNELS, List.map_cons, List.map_nil, List.sum_cons,
      List.sum_nil] at hN hpos ⊢
    have hne : afterShareRaw spend model Channel.Meta +
        (afterShareRaw spend model Channel.GoogleSearch +
          (afterShareRaw spend model Channel.LinkedIn + 0)) ≠ 0 := ne_of_gt hpos
    rw [hN]
    have hsplit : afterShareRaw spend model Channel.Meta /
          (afterShareRaw spend model Channel.Meta +
            (afterShareRaw spend model Channel.GoogleSearch +
              (afterShareRaw spend model Channel.LinkedIn + 0))) * planTotal spend +
        (afterShareRaw spend model Channel.GoogleSearch /
          (afterShareRaw spend model Channel.Meta +
            (afterShareRaw spend model Channel.GoogleSearch +
              (afterShareRaw spend model Channel.LinkedIn + 0))) * planTotal spend +
          (afterShareRaw spend model Channel.LinkedIn /
            (afterShareRaw spend model Channel.Meta +
              (afterShareRaw spend model Channel.GoogleSearch +
                (afterShareRaw spend model Channel.LinkedIn + 0))) * planTotal spend + 0)) =
        (afterShareRaw spend model Channel.Meta +
          (afterShareRaw spend model Channel.GoogleSearch +
            (afterShareRaw spend model Channel.LinkedIn + 0))) /
          (afterShareRaw spend model Channel.Meta +
            (afterShareRaw spend model Channel.GoogleSearch +
              (afterShareRaw spend model Channel.LinkedIn + 0))) * planTotal spend := by
      ring
    rw [hsplit, div_self hne, one_mul]
  · rintro ⟨hs, hfloor⟩
    have hT : planTotal spend = (CHANNELS.map spend).sum := by
      unfold planTotal
      rw [if_neg (ne_of_gt hs)]
    have hsne : (CHANNELS.map spend).sum ≠ 0 := ne_of_gt hs
    have hm := hfloor Channel.Meta (by decide)
    have hg := hfloor Channel.GoogleSearch (by decide)
    have hl := hfloor Channel.LinkedIn (by decide)
    have hbs : beforeShare spend Channel.Meta + beforeShare spend Channel.GoogleSearch +
        beforeShare spend Channel.LinkedIn = 1 := by
      unfold beforeShare
      rw [hT]
      have hjoin : spend Channel.Meta / (CHANNELS.map spend).sum +
          spend Channel.GoogleSearch / (CHANNELS.map spend).sum +
          spend Channel.LinkedIn / (CHANNELS.map spend).sum =
          (spend Channel.Meta + spend Channel.GoogleSearch + spend Channel.LinkedIn) /
            (CHANNELS.map spend).sum := by
        ring
      rw [hjoin, div_eq_one_iff_eq hsne]
      simp only [CHANNELS, List.map_cons, List.map_nil, List.sum_cons, List.sum_nil]
      ring
    have hsum : (CHANNELS.map (afterShareRaw spend model)).sum =
        beforeShare spend Channel.Meta + beforeShare spend Channel.GoogleSearch +
          beforeShare spend Channel.LinkedIn := by
      simp only [CHANNELS, List.map_cons, List.map_nil, List.sum_cons, List.sum_nil,
        afterShareRaw, reallocationPool, totalUnderWeight_eq]
      rw [max_eq_right hm, max_eq_right hg, max_eq_right hl]
      simp only [CHANNELS, List.map_cons, List.map_nil, List.sum_cons, List.sum_nil,
        underCreditedBase]
      ring
    have hnorm1 : planNormalize spend model = 1 := by
      rw [hN, hsum, hbs]
    simp only [deriveBudgetPlan, CHANNELS, List.map_cons, List.map_nil, List.sum_cons,
      List.sum_nil]
    rw [hnorm1]
    simp only [div_one]
    linear_combination planTotal spend * hbs

/-- C1 witness: both sums equal the total at the page's default spends with
the bayesian_mmm model (positive total, no floor binds). -/
theorem budget_plan_totals_witness :
    ((deriveBudgetPlan dSpend AttributionModel.bayesian_mmm).map BudgetPlanRow.after).sum =
        planTotal dSpend ∧
    ((deriveBudgetPlan dSpend AttributionModel.bayesian_mmm).map BudgetPlanRow.before).sum =
        planTotal dSpend :=
  ⟨(budget_plan_totals dSpend AttributionModel.bayesian_mmm).1,
   (budget_plan_totals dSpend AttributionModel.bayesian_mmm).2
     ⟨by norm_num [CHANNELS, dSpend],
      by
        intro ch hch
        fin_cases hch <;>
          norm_num +decide [beforeShare, giveBack, planTotal, CHANNELS, dSpend,
            overCreditedBase, reallocationIntensity, max_def]⟩⟩

end AttribSim
